import Mathlib

/-!
Shallow embedding of the VocalWeaver server (`src/main.py`) for checking the
natural-language specification against the code.

The server is a FastAPI websocket application: at startup it scans a voices
directory and builds two parallel dictionaries keyed by a derived display name
(`tts_voices`, `available_voices_info`), then each websocket connection sends a
catalog of display names and runs a receive loop: decode base64 audio,
transcribe it (via pydub conversion + faster-whisper), synthesize the
transcript with the selected piper voice, and reply; uncaught exceptions close
the connection with code 1011.

External collaborators (pydub's container conversion, scipy's WAV reader, the
whisper STT model, the piper TTS engine) are modelled as oracle functions in a
`PipelineEnv`; everything else (display-name derivation, registry
construction, Python's `base64` codec, message framing, the per-connection
loop) is translated from the source.

Python string primitives (`split`, `replace`, `title`, `strip`, `endswith`,
`sorted`) are implemented here as structurally recursive functions on
character lists so that all definitions are kernel-computable.
-/

namespace VocalWeaver

/-! ### Python string primitives -/

/-- `str.split(sep)` for a single-character separator:
`"a--b".split('-') == ['a', '', 'b']`, `"".split('-') == ['']`. -/
def pySplitAux (sep : Char) : List Char → List Char → List (List Char)
  | [], cur => [cur.reverse]
  | c :: cs, cur =>
    if c = sep then cur.reverse :: pySplitAux sep cs []
    else pySplitAux sep cs (c :: cur)

def pySplit (sep : Char) (s : String) : List String :=
  (pySplitAux sep s.data []).map (fun l => ⟨l⟩)

/-- `str.replace(pat, repl)`: replace all non-overlapping occurrences, left to
right.  Fuel-based recursion (each step consumes at least one character when
the pattern is non-empty; the empty pattern, unused by the source, is the
identity here). -/
def pyReplaceAux (pat repl : List Char) : Nat → List Char → List Char
  | _, [] => []
  | 0, l => l
  | fuel + 1, c :: cs =>
    if pat ≠ [] ∧ pat.isPrefixOf (c :: cs) then
      repl ++ pyReplaceAux pat repl fuel ((c :: cs).drop pat.length)
    else
      c :: pyReplaceAux pat repl fuel cs

def pyReplace (s pat repl : String) : String :=
  ⟨pyReplaceAux pat.data repl.data s.data.length s.data⟩

/-- `str.endswith(pat)`. -/
def pyEndsWith (s pat : String) : Bool :=
  s.data.drop (s.data.length - pat.data.length) == pat.data

/-- `str.title()`: uppercase the first character of every run of letters,
lowercase the rest of the run. -/
def pyTitleAux : List Char → Bool → List Char
  | [], _ => []
  | c :: cs, prevAlpha =>
    if c.isAlpha then
      (if prevAlpha then c.toLower else c.toUpper) :: pyTitleAux cs true
    else
      c :: pyTitleAux cs false

def pyTitle (s : String) : String :=
  ⟨pyTitleAux s.data false⟩

/-- `str.strip()` with the default (whitespace) separator set. -/
def pyStrip (s : String) : String :=
  ⟨((s.data.dropWhile Char.isWhitespace).reverse.dropWhile Char.isWhitespace).reverse⟩

/-- `''.join(segments)`. -/
def pyJoin : List String → String
  | [] => ""
  | s :: rest => s ++ pyJoin rest

/-- Python's `<` on strings: lexicographic order on code points. -/
def pyLtList : List Char → List Char → Bool
  | [], [] => false
  | [], _ :: _ => true
  | _ :: _, [] => false
  | a :: as, b :: bs =>
    if a.toNat < b.toNat then true
    else if b.toNat < a.toNat then false
    else pyLtList as bs

def pyLt (a b : String) : Bool := pyLtList a.data b.data

def pyLe (a b : String) : Bool := !pyLtList b.data a.data

def pyLeRel : String → String → Prop := fun a b => pyLe a b = true

instance : DecidableRel pyLeRel := fun a b =>
  inferInstanceAs (Decidable (pyLe a b = true))

/-- Python's `sorted` on strings: lexicographic (code-point) order.  Python
uses a stable mergesort, but string order is total and antisymmetric, so every
correct sort produces the same list; we use insertion sort because it is
structurally recursive (kernel-computable). -/
def pySorted (l : List String) : List String :=
  List.insertionSort pyLeRel l

/-! ### Python dictionaries

`d[k] = v` on a `dict` keeps the insertion position of an existing key but
overwrites its value; a fresh key is appended.  We model the dicts of
`main.py` as insertion-ordered association lists. -/

abbrev Registry := List (String × String)

def dictInsert (d : Registry) (k v : String) : Registry :=
  if d.any (fun p => p.1 == k) then
    d.map (fun p => if p.1 == k then (k, v) else p)
  else
    d ++ [(k, v)]

def dictLookup (d : Registry) (k : String) : Option String :=
  (d.find? (fun p => p.1 == k)).map (fun p => p.2)

def dictKeys (d : Registry) : List String :=
  d.map (fun p => p.1)

/-! ### Display-name derivation (`main.py` lines 51-56) -/

/-- `friendly_name` computation of `startup_event`: split the base name on
`-`; region is the second `_`-token of the first part, name is the title-cased
second part with underscores replaced by spaces, quality is the third part;
any `IndexError` falls back to the raw base name. -/
def deriveFriendlyName (base_name : String) : String :=
  let parts := pySplit '-' base_name
  let langParts := pySplit '_' (parts.headD "")
  match langParts[1]?, parts[1]?, parts[2]? with
  | some lang_region, some nm, some quality =>
    pyTitle (pyReplace nm "_" " ") ++ " (" ++ lang_region ++ ", " ++ quality ++ ")"
  | _, _, _ => base_name

/-! ### Registry construction (`startup_event`, `main.py` lines 45-61)

`sorted(os.listdir(VOICES_DIR))` is lexicographic order on the file names;
`os.path.exists(config_path)` is membership of the sidecar name in the same
directory listing.  `tts_voices` maps a display name to a loaded `PiperVoice`
handle and `available_voices_info` maps it to the base name; both are keyed
identically and populated in lockstep, so we model the pair by one table from
display name to base name (the handle is opaque and uniquely determined by
the base name). -/

def startupStep (listing : List String) (acc : Registry) (file : String) : Registry :=
  if pyEndsWith file ".onnx" then
    let base_name := pyReplace file ".onnx" ""
    if listing.contains (base_name ++ ".onnx.json") then
      dictInsert acc (deriveFriendlyName base_name) base_name
    else acc
  else acc

def startup_event (listing : List String) : Registry :=
  (pySorted listing).foldl (startupStep listing) []

/-- A file of the listing contributes registry key `d`: it is a model file
whose sidecar config exists in the directory and whose base name derives
display name `d`. -/
def packContributes (listing : List String) (file : String) (d : String) : Prop :=
  pyEndsWith file ".onnx" = true ∧
  listing.contains (pyReplace file ".onnx" "" ++ ".onnx.json") = true ∧
  deriveFriendlyName (pyReplace file ".onnx" "") = d

instance (listing : List String) (file d : String) :
    Decidable (packContributes listing file d) := by
  unfold packContributes; infer_instance

/-! ### Python `base64` codec (`main.py` lines 128 and 133)

`base64.b64decode(s)` with the default `validate=False` delegates to
`binascii.a2b_base64` in non-strict mode: the string must be ASCII (else
`ValueError`); characters outside the base64 alphabet are discarded; a `'='`
increments a pad counter only when the current 4-character group already
holds 2 or 3 data characters (the counter is reset by every data character,
so a lone `'='` mid-group is ignored and decoding resumes — e.g.
`b64decode("ab=cd")` is 3 bytes), and when group position plus pad count
reaches 4 the group is flushed (1 byte at position 2, 2 bytes at position 3)
and everything after it is ignored; leftover group characters at the end of
the input raise `binascii.Error` — with the exact messages reproduced
below. -/

def exceptDecEq {ε α : Type} [DecidableEq ε] [DecidableEq α] : DecidableEq (Except ε α)
  | .error e₁, .error e₂ =>
    if h : e₁ = e₂ then .isTrue (by rw [h]) else .isFalse (by intro hc; cases hc; exact h rfl)
  | .error _, .ok _ => .isFalse (by intro hc; cases hc)
  | .ok _, .error _ => .isFalse (by intro hc; cases hc)
  | .ok a₁, .ok a₂ =>
    if h : a₁ = a₂ then .isTrue (by rw [h]) else .isFalse (by intro hc; cases hc; exact h rfl)

instance {ε α : Type} [DecidableEq ε] [DecidableEq α] : DecidableEq (Except ε α) :=
  exceptDecEq

def b64CharVal (c : Char) : Option Nat :=
  if 'A' ≤ c ∧ c ≤ 'Z' then some (c.toNat - 65)
  else if 'a' ≤ c ∧ c ≤ 'z' then some (c.toNat - 97 + 26)
  else if '0' ≤ c ∧ c ≤ '9' then some (c.toNat - 48 + 52)
  else if c = '+' then some 62
  else if c = '/' then some 63
  else none

def b64CountMsg (n : Nat) : String :=
  "Invalid base64-encoded string: number of data characters (" ++ toString n ++
    ") cannot be 1 more than a multiple of 4"

/-- Main decode loop, mirroring `binascii.a2b_base64` in non-strict mode:
`acc` are the output bytes, `buf` the 6-bit values of the current group
(length at most 3, the `quad_pos` of the C code), `pads` the pad counter
(incremented by `'='` only at group position 2 or 3, reset by every data
character; `quad_pos + pads >= 4` flushes the group and ends the input), and
`n` the total number of data characters seen (for the error message). -/
def b64Loop (acc : List Nat) (buf : List Nat) (pads n : Nat) :
    List Char → Except String (List Nat)
  | [] =>
    match buf with
    | [] => .ok acc
    | [_] => .error (b64CountMsg n)
    | _ => .error "Incorrect padding"
  | c :: cs =>
    if c = '=' then
      match buf with
      | [a, b] =>
        if 2 + (pads + 1) ≥ 4 then .ok (acc ++ [a * 4 + b / 16])
        else b64Loop acc buf (pads + 1) n cs
      | [a, b, c3] => .ok (acc ++ [a * 4 + b / 16, b % 16 * 16 + c3 / 4])
      | _ => b64Loop acc buf pads n cs
    else
      match b64CharVal c with
      | none => b64Loop acc buf pads n cs
      | some v =>
        match buf with
        | [a, b, c3] =>
          b64Loop (acc ++ [a * 4 + b / 16, b % 16 * 16 + c3 / 4, c3 % 4 * 64 + v]) []
            0 (n + 1) cs
        | _ => b64Loop acc (buf ++ [v]) 0 (n + 1) cs

/-- `base64.b64decode` on a `str` argument, default `validate=False`;
`.error` is the `str()` of the exception the Python call raises. -/
def b64decode (s : String) : Except String (List Nat) :=
  if s.data.any (fun c => 127 < c.toNat) then
    .error "string argument should contain only ASCII characters"
  else
    b64Loop [] [] 0 0 s.data

/-- `base64.b64encode(bytes).decode('utf-8')`. -/
def b64EncChar (v : Nat) : Char :=
  if v < 26 then Char.ofNat (65 + v)
  else if v < 52 then Char.ofNat (97 + (v - 26))
  else if v < 62 then Char.ofNat (48 + (v - 52))
  else if v = 62 then '+'
  else '/'

def b64EncodeAux : List Nat → List Char
  | [] => []
  | [x] => [b64EncChar (x / 4), b64EncChar (x % 4 * 16), '=', '=']
  | [x, y] => [b64EncChar (x / 4), b64EncChar (x % 4 * 16 + y / 16), b64EncChar (y % 16 * 4), '=']
  | x :: y :: z :: rest =>
    b64EncChar (x / 4) :: b64EncChar (x % 4 * 16 + y / 16) ::
      b64EncChar (y % 16 * 4 + z / 64) :: b64EncChar (z % 64) :: b64EncodeAux rest

def b64encode (bytes : List Nat) : String :=
  ⟨b64EncodeAux bytes⟩

/-! ### The request pipeline (`main.py` lines 68-112)

External collaborators are oracles collected in a `PipelineEnv`:
`convert` is pydub's container decode / resample / mono down-mix / WAV export
(lines 72-79, the body of the `try`), `read_wav` is `scipy.io.wavfile.read`
(line 84, giving the integer dtype's width in bits and the samples),
`stt` is `stt_model.transcribe` (line 86, the segment texts in order), and
`synth` is `PiperVoice.synthesize` captured as WAV bytes (lines 100-112,
keyed by the voice handle, which our registry identifies with the base
name). -/

structure WavData where
  width : Nat
  samples : List Int

structure PipelineEnv where
  convert : List Nat → Except String (List Nat)
  read_wav : List Nat → WavData
  stt : List ℚ → List String
  synth : String → String → List Nat

/-- `np.iinfo(data.dtype).max` for a signed integer dtype of `width` bits. -/
def iinfoMax (width : Nat) : ℚ :=
  2 ^ (width - 1) - 1

/-- Line 85: `audio_float32 = data.astype(np.float32) / np.iinfo(data.dtype).max`.
Exact rational arithmetic stands in for IEEE float32. -/
def normalizeSamples (width : Nat) (samples : List Int) : List ℚ :=
  samples.map (fun s : Int => (s : ℚ) / iinfoMax width)

/-- `transcribe_audio_stream` (lines 68-89): the `try` block converts the blob
to WAV and any conversion error returns `""`; otherwise read the WAV,
normalize the integer samples, transcribe, join the segment texts and strip
whitespace. -/
def transcribe_audio_stream (env : PipelineEnv) (audio_bytes : List Nat) : String :=
  match env.convert audio_bytes with
  | .error _ => ""
  | .ok wav_bytes =>
    let wav := env.read_wav wav_bytes
    let audio_float32 := normalizeSamples wav.width wav.samples
    pyStrip (pyJoin (env.stt audio_float32))

/-- `synthesize_speech_stream` (lines 91-112): raising
`ValueError("Selected voice not found.")` is modelled as `.error` carrying
the exception's `str()`. -/
def synthesize_speech_stream (env : PipelineEnv) (tts_voices : Registry)
    (text voice_name : String) : Except String (List Nat) :=
  match dictLookup tts_voices voice_name with
  | none => .error "Selected voice not found."
  | some voice => .ok (env.synth voice text)

/-! ### The websocket session (`websocket_endpoint`, `main.py` lines 115-141)

A session is modelled by the list of inbound client messages (the successive
`receive_json` results; exhausting the list is the client disconnecting) and
produces the list of server-to-client messages and how the connection ended:
`disconnected` for the `WebSocketDisconnect` branch, `closed code reason` for
the generic exception handler that calls `websocket.close(code=1011, ...)`. -/

inductive ServerMsg
  | voices (data : List String)
  | status (message : String)
  | result (text : String) (audio : Option String)
deriving DecidableEq

inductive SessionEnd
  | disconnected
  | closed (code : Nat) (reason : String)
deriving DecidableEq

/-- One inbound JSON message; `message.get(...)` yields `none` when the field
is absent. -/
structure ClientMsg where
  voice : Option String
  audio : Option String
deriving DecidableEq

/-- Python truthiness of `message.get(...)` for a string field:
falsy iff absent or empty. -/
def pyTruthy : Option String → Bool
  | none => false
  | some s => !s.isEmpty

/-- The loop body (lines 122-136) for one inbound message: returns the
possibly-updated global voice table, the messages sent, and `some (code,
reason)` when an exception escapes to the handler of lines 139-141 (the
reason is `f"An internal error occurred: {e}"`).  The body never assigns the
global dicts, so the table is returned unchanged on every path. -/
def handleMessage (env : PipelineEnv) (tts_voices : Registry) (m : ClientMsg) :
    Registry × List ServerMsg × Option (Nat × String) :=
  if !pyTruthy m.voice || !pyTruthy m.audio then
    (tts_voices, [], none)
  else
    match b64decode (m.audio.getD "") with
    | .error e =>
      (tts_voices, [ServerMsg.status "Received audio. Transcribing..."],
        some (1011, "An internal error occurred: " ++ e))
    | .ok audio_bytes =>
      if transcribe_audio_stream env audio_bytes ≠ "" then
        match synthesize_speech_stream env tts_voices
            (transcribe_audio_stream env audio_bytes) (m.voice.getD "") with
        | .error e =>
          (tts_voices,
            [ServerMsg.status "Received audio. Transcribing...",
             ServerMsg.status "Synthesizing new voice..."],
            some (1011, "An internal error occurred: " ++ e))
        | .ok synthesized_bytes =>
          (tts_voices,
            [ServerMsg.status "Received audio. Transcribing...",
             ServerMsg.status "Synthesizing new voice...",
             ServerMsg.result (transcribe_audio_stream env audio_bytes)
               (some (b64encode synthesized_bytes))],
            none)
      else
        (tts_voices,
          [ServerMsg.status "Received audio. Transcribing...",
           ServerMsg.result "No speech detected." none],
          none)

/-- The `while True` receive loop (lines 121-136). -/
def runSession (env : PipelineEnv) : Registry → List ClientMsg →
    Registry × List ServerMsg × SessionEnd
  | tts_voices, [] => (tts_voices, [], SessionEnd.disconnected)
  | tts_voices, m :: rest =>
    let h := handleMessage env tts_voices m
    match h.2.2 with
    | some c => (h.1, h.2.1, SessionEnd.closed c.1 c.2)
    | none =>
      let r := runSession env h.1 rest
      (r.1, h.2.1 ++ r.2.1, r.2.2)

/-- `websocket_endpoint` (lines 115-141): accept, send the catalog message
`{"type": "voices", "data": list(available_voices_info.keys())}`, then run
the receive loop. -/
def websocket_endpoint (env : PipelineEnv) (tts_voices : Registry)
    (msgs : List ClientMsg) : Registry × List ServerMsg × SessionEnd :=
  let r := runSession env tts_voices msgs
  (r.1, ServerMsg.voices (dictKeys tts_voices) :: r.2.1, r.2.2)

def isVoicesMsg : ServerMsg → Bool
  | ServerMsg.voices _ => true
  | _ => false

/-! ### Concrete fixtures used to instantiate theorems -/

/-- Collaborators for a request whose audio decodes and contains speech. -/
def testEnv : PipelineEnv where
  convert := fun _ => .ok [82, 73, 70, 70]
  read_wav := fun _ => ⟨16, [0, 1000, -1000]⟩
  stt := fun _ => [" hello"]
  synth := fun _ _ => [82, 73]

/-- Collaborators for which pydub's conversion raises. -/
def failEnv : PipelineEnv where
  convert := fun _ => .error "Decoding failed. ffmpeg returned error code: 1"
  read_wav := fun _ => ⟨16, []⟩
  stt := fun _ => []
  synth := fun _ _ => []

def testRegistry : Registry := [("Amy (US, medium)", "en_US-amy-medium")]

def emptyAudioMsg : ClientMsg := ⟨some "Amy (US, medium)", some ""⟩

def badContainerMsg : ClientMsg := ⟨some "Amy (US, medium)", some "AAAA"⟩

def badBase64Msg : ClientMsg := ⟨some "Amy (US, medium)", some "abc"⟩

/-- Two packs deriving the display name `"Amy (US, medium)"`:
`str.title()` maps both `amy` and `AMY` to `Amy`. -/
def dupListing : List String :=
  ["en_US-AMY-medium.onnx", "en_US-AMY-medium.onnx.json",
   "en_US-amy-medium.onnx", "en_US-amy-medium.onnx.json"]

example : deriveFriendlyName "en_US-amy-medium" = "Amy (US, medium)" := by decide

example : deriveFriendlyName "foo-bar" = "foo-bar" := by decide

example : deriveFriendlyName "en_GB-joe_bloggs-low" = "Joe Bloggs (GB, low)" := by decide

example : startup_event ["en_US-amy-medium.onnx", "en_US-amy-medium.onnx.json"] =
    [("Amy (US, medium)", "en_US-amy-medium")] := by decide

example : startup_event ["b.onnx", "a.onnx", "a.onnx.json"] = [("a", "a")] := by decide

example : b64decode "abc" = .error "Incorrect padding" := by decide
example : b64decode "AAAA" = .ok [0, 0, 0] := by decide
example : b64decode "YQ==" = .ok [97] := by decide
example : b64decode "ab==cd" = .ok [105] := by decide
example : b64decode "!!!!" = .ok [] := by decide
example : b64decode "Y Q==" = .ok [97] := by decide
example : b64decode "AAAAA" =
    .error (b64CountMsg 5) := by decide
example : b64decode "ab=cd" = .ok [105, 183, 29] := by decide
example : b64decode "a=b=c=d=" = .ok [105, 183] := by decide
example : b64decode "ab=cde" = .error (b64CountMsg 5) := by decide
example : b64decode "ab=c" = .error "Incorrect padding" := by decide
example : b64decode "ab=c=" = .ok [105, 183] := by decide
example : b64decode "a=b=" = .error "Incorrect padding" := by decide
example : b64decode "YQ=A=" = .ok [97, 0] := by decide
example : b64decode "Y==Q==" = .ok [97] := by decide
example : b64decode "abc=" = .ok [105, 183] := by decide
example : b64decode "abc=XYZ" = .ok [105, 183] := by decide
example : b64decode "YQ==AAAA" = .ok [97] := by decide
example : b64decode "YQ=A" = .error "Incorrect padding" := by decide
example : b64decode "YQ=" = .error "Incorrect padding" := by decide
example : b64decode "Y=" = .error (b64CountMsg 1) := by decide
example : b64decode "a===" = .error (b64CountMsg 1) := by decide
example : b64decode "A==A" = .error "Incorrect padding" := by decide
example : b64decode "==" = .ok [] := by decide
example : b64decode "" = .ok [] := by decide
example : b64decode "AAAAab=cde" = .error (b64CountMsg 9) := by decide
example : b64encode [0, 255, 16] = "AP8Q" := by decide
example : b64encode [97] = "YQ==" := by decide
example : b64encode [105, 183] = "abc=" := by decide

example : transcribe_audio_stream testEnv [0] = "hello" := by decide

example : transcribe_audio_stream failEnv [0] = "" := by decide

example :
    runSession testEnv testRegistry [⟨some "Amy (US, medium)", some "AAAA"⟩] =
      (testRegistry,
        [ServerMsg.status "Received audio. Transcribing...",
         ServerMsg.status "Synthesizing new voice...",
         ServerMsg.result "hello" (some "Ukk=")],
        SessionEnd.disconnected) := by decide

example :
    runSession testEnv testRegistry [⟨some "Bob", some "AAAA"⟩] =
      (testRegistry,
        [ServerMsg.status "Received audio. Transcribing...",
         ServerMsg.status "Synthesizing new voice..."],
        SessionEnd.closed 1011 "An internal error occurred: Selected voice not found.") := by
  decide

theorem pyLtList_irrefl : ∀ l : List Char, pyLtList l l = false
  | [] => rfl
  | c :: cs => by simp [pyLtList, pyLtList_irrefl cs]

theorem pyLtList_trans {x y z : List Char} (h₁ : pyLtList x y = true)
    (h₂ : pyLtList y z = true) : pyLtList x z = true := by
  induction x generalizing y z with
  | nil =>
    cases y with
    | nil => simp [pyLtList] at h₁
    | cons b bs =>
      cases z with
      | nil => simp [pyLtList] at h₂
      | cons c cs => simp [pyLtList]
  | cons a as ih =>
    cases y with
    | nil => simp [pyLtList] at h₁
    | cons b bs =>
      cases z with
      | nil => simp [pyLtList] at h₂
      | cons c cs =>
        simp only [pyLtList] at h₁ h₂ ⊢
        by_cases hab : a.toNat < b.toNat
        · by_cases hbc : b.toNat < c.toNat
          · have hac : a.toNat < c.toNat := hab.trans hbc
            simp [hac]
          · by_cases hcb : c.toNat < b.toNat
            · simp [hbc, hcb] at h₂
            · have hac : a.toNat < c.toNat := by omega
              simp [hac]
        · by_cases hba : b.toNat < a.toNat
          · simp [hab, hba] at h₁
          · simp only [hab, hba, if_false] at h₁
            by_cases hbc : b.toNat < c.toNat
            · have hac : a.toNat < c.toNat := by omega
              simp [hac]
            · by_cases hcb : c.toNat < b.toNat
              · simp [hbc, hcb] at h₂
              · simp only [hbc, hcb, if_false] at h₂
                have hnac : ¬ a.toNat < c.toNat := by omega
                have hnca : ¬ c.toNat < a.toNat := by omega
                simp only [hnac, hnca, if_false]
                exact ih h₁ h₂

theorem pyLtList_connex {x y : List Char} (h₁ : pyLtList x y = false)
    (h₂ : pyLtList y x = false) : x = y := by
  induction x generalizing y with
  | nil =>
    cases y with
    | nil => rfl
    | cons b bs => simp [pyLtList] at h₁
  | cons a as ih =>
    cases y with
    | nil => simp [pyLtList] at h₂
    | cons b bs =>
      simp only [pyLtList] at h₁ h₂
      rcases Nat.lt_trichotomy a.toNat b.toNat with hab | hab | hab
      · simp [hab] at h₁
      · have hnab : ¬ a.toNat < b.toNat := by omega
        have hnba : ¬ b.toNat < a.toNat := by omega
        simp only [hnab, hnba, if_false] at h₁ h₂
        have hc : a = b := by
          have := Char.ofNat_toNat a
          rw [hab, Char.ofNat_toNat b] at this
          exact this.symm
        rw [hc, ih h₁ h₂]
      · simp [hab] at h₂

instance : IsTrans String pyLeRel where
  trans a b c h₁ h₂ := by
    simp only [pyLeRel, pyLe, Bool.not_eq_true'] at h₁ h₂ ⊢
    rcases hca : pyLtList c.data a.data with _ | _
    · rfl
    · rcases hab : pyLtList a.data b.data with _ | _
      · have he : a.data = b.data := pyLtList_connex hab h₁
        rw [he] at hca
        rw [hca] at h₂
        exact h₂
      · have : pyLtList c.data b.data = true := pyLtList_trans hca hab
        rw [this] at h₂
        exact h₂

instance : IsTotal String pyLeRel where
  total a b := by
    rcases h1 : pyLtList b.data a.data with _ | _
    · exact Or.inl (by simp [pyLeRel, pyLe, h1])
    · rcases h2 : pyLtList a.data b.data with _ | _
      · exact Or.inr (by simp [pyLeRel, pyLe, h2])
      · have := pyLtList_trans h1 h2
        rw [pyLtList_irrefl] at this
        exact absurd this (by simp)

instance : IsAntisymm String pyLeRel where
  antisymm a b h₁ h₂ := by
    simp only [pyLeRel, pyLe, Bool.not_eq_true'] at h₁ h₂
    have hd : a.data = b.data := pyLtList_connex h₂ h₁
    cases a
    cases b
    exact congrArg String.mk hd

/-! ### Dictionary lemmas -/

theorem find?_cons_pos {α : Type} (p : α → Bool) (a : α) (l : List α) (h : p a = true) :
    List.find? p (a :: l) = some a :=
  List.find?_cons_of_pos l h

theorem find?_cons_neg {α : Type} (p : α → Bool) (a : α) (l : List α) (h : p a = false) :
    List.find? p (a :: l) = List.find? p l :=
  List.find?_cons_of_neg l (by simp [h])

theorem find?_mapUpdate (rest : Registry) (k v k' : String) (hk : k' ≠ k) :
    (rest.map (fun p => if p.1 == k then (k, v) else p)).find? (fun p => p.1 == k') =
      rest.find? (fun p => p.1 == k') := by
  induction rest with
  | nil => rfl
  | cons p tail ih =>
    rw [List.map_cons]
    by_cases hp : p.1 = k
    · rw [if_pos (by simp [hp] : (p.1 == k) = true)]
      rw [find?_cons_neg (fun q => q.1 == k') (k, v) _ (by simp [Ne.symm hk])]
      rw [find?_cons_neg (fun q => q.1 == k') p _ (by simp [hp, Ne.symm hk])]
      exact ih
    · rw [if_neg (by simp [hp] : ¬ (p.1 == k) = true)]
      by_cases hq : p.1 = k'
      · rw [find?_cons_pos (fun q => q.1 == k') p _ (by simp [hq]),
          find?_cons_pos (fun q => q.1 == k') p _ (by simp [hq])]
      · rw [find?_cons_neg (fun q => q.1 == k') p _ (by simp [hq]),
          find?_cons_neg (fun q => q.1 == k') p _ (by simp [hq])]
        exact ih

theorem find?_mapUpdate_self (rest : Registry) (k v : String)
    (hany : rest.any (fun p => p.1 == k) = true) :
    (rest.map (fun p => if p.1 == k then (k, v) else p)).find? (fun p => p.1 == k) =
      some (k, v) := by
  induction rest with
  | nil => simp at hany
  | cons p tail ih =>
    rw [List.map_cons]
    by_cases hp : p.1 = k
    · rw [if_pos (by simp [hp] : (p.1 == k) = true)]
      exact find?_cons_pos (fun q => q.1 == k) (k, v) _ (by simp)
    · have htail : tail.any (fun p => p.1 == k) = true := by
        simp only [List.any_cons] at hany
        simpa [hp] using hany
      rw [if_neg (by simp [hp] : ¬ (p.1 == k) = true)]
      rw [find?_cons_neg (fun q => q.1 == k) p _ (by simp [hp])]
      exact ih htail

/-- Characterization of a Python dict store: it overwrites the named key and
leaves every other key's binding unchanged. -/
theorem dictLookup_insert (d : Registry) (k v k' : String) :
    dictLookup (dictInsert d k v) k' = if k' = k then some v else dictLookup d k' := by
  unfold dictInsert dictLookup
  by_cases hany : d.any (fun p => p.1 == k) = true
  · rw [if_pos hany]
    by_cases hk : k' = k
    · subst hk
      rw [find?_mapUpdate_self d k' v hany]
      simp
    · rw [find?_mapUpdate d k v k' hk, if_neg hk]
  · rw [if_neg hany]
    have hnone : d.find? (fun p => p.1 == k) = none := by
      rw [List.find?_eq_none]
      intro x hx
      simp only [List.any_eq_true, not_exists, not_and] at hany ⊢
      exact fun hc => absurd hc (by simpa using hany x hx)
    by_cases hk : k' = k
    · subst hk
      rw [List.find?_append, hnone]
      simp
    · rw [List.find?_append]
      have : (k == k') = false := by simp [Ne.symm hk]
      simp [this, if_neg hk]

/-! ### Session lemmas -/

theorem handleMessage_fst (env : PipelineEnv) (reg : Registry) (m : ClientMsg) :
    (handleMessage env reg m).1 = reg := by
  unfold handleMessage
  split
  · rfl
  · split
    · rfl
    · split
      · split <;> rfl
      · rfl

theorem handleMessage_no_voices (env : PipelineEnv) (reg : Registry) (m : ClientMsg) :
    ∀ x ∈ (handleMessage env reg m).2.1, isVoicesMsg x = false := by
  unfold handleMessage
  split
  · simp
  · split
    · simp [isVoicesMsg]
    · split
      · split <;> simp [isVoicesMsg]
      · simp [isVoicesMsg]

theorem runSession_fst (env : PipelineEnv) (reg : Registry) (msgs : List ClientMsg) :
    (runSession env reg msgs).1 = reg := by
  induction msgs generalizing reg with
  | nil => rfl
  | cons m rest ih =>
    simp only [runSession]
    cases hc : (handleMessage env reg m).2.2 with
    | none => simp only [hc]; rw [ih]; exact handleMessage_fst env reg m
    | some c => simp only [hc]; exact handleMessage_fst env reg m

/-! ### Registry fold lemmas -/

theorem foldl_no_contrib (listing : List String) (d : String) (fs : List String) :
    ∀ acc : Registry, (∀ g ∈ fs, ¬ packContributes listing g d) →
      dictLookup (fs.foldl (startupStep listing) acc) d = dictLookup acc d := by
  induction fs with
  | nil => intro acc _; rfl
  | cons g rest ih =>
    intro acc hno
    rw [List.foldl_cons]
    have hstep : dictLookup (startupStep listing acc g) d = dictLookup acc d := by
      simp only [startupStep]
      by_cases he : pyEndsWith g ".onnx" = true
      · rw [if_pos he]
        by_cases hc : listing.contains (pyReplace g ".onnx" "" ++ ".onnx.json") = true
        · rw [if_pos hc]
          have hne : deriveFriendlyName (pyReplace g ".onnx" "") ≠ d := by
            intro hd
            exact hno g (List.mem_cons_self g rest) ⟨he, hc, hd⟩
          rw [dictLookup_insert, if_neg (Ne.symm hne)]
        · rw [if_neg hc]
      · rw [if_neg he]
    rw [ih (startupStep listing acc g) (fun g' hg' => hno g' (List.mem_cons_of_mem _ hg')),
      hstep]

theorem foldl_last_contrib (listing : List String) (d : String) (fs : List String) :
    ∀ (acc : Registry) (f : String),
      List.Pairwise pyLeRel fs → fs.Nodup → f ∈ fs → packContributes listing f d →
      (∀ g ∈ fs, packContributes listing g d → g ≠ f → pyLt g f = true) →
      dictLookup (fs.foldl (startupStep listing) acc) d =
        some (pyReplace f ".onnx" "") := by
  induction fs with
  | nil =>
    intro _ f _ _ hf _ _
    exact absurd hf (List.not_mem_nil f)
  | cons g rest ih =>
    intro acc f hsort hnd hmem hcon hlast
    rw [List.foldl_cons]
    rcases List.mem_cons.mp hmem with rfl | hf
    · obtain ⟨he, hc, hd⟩ := hcon
      have hstep : dictLookup (startupStep listing acc f) d =
          some (pyReplace f ".onnx" "") := by
        simp only [startupStep]
        rw [if_pos he, if_pos hc, hd, dictLookup_insert, if_pos rfl]
      have hnon : ∀ h ∈ rest, ¬ packContributes listing h d := by
        intro h hh hcont
        have hne : h ≠ f := by
          intro he'
          subst he'
          exact (List.nodup_cons.mp hnd).1 hh
        have hlt : pyLt h f = true := hlast h (List.mem_cons_of_mem _ hh) hcont hne
        have hle : pyLeRel f h := (List.pairwise_cons.mp hsort).1 h hh
        simp only [pyLeRel, pyLe, Bool.not_eq_true'] at hle
        rw [pyLt, hle] at hlt
        exact Bool.false_ne_true hlt
      rw [foldl_no_contrib listing d rest _ hnon, hstep]
    · exact ih (startupStep listing acc g) f (List.pairwise_cons.mp hsort).2
        (List.nodup_cons.mp hnd).2 hf hcon
        (fun g' hg' => hlast g' (List.mem_cons_of_mem _ hg'))

theorem runSession_no_voices (env : PipelineEnv) (reg : Registry) (msgs : List ClientMsg) :
    ∀ x ∈ (runSession env reg msgs).2.1, isVoicesMsg x = false := by
  induction msgs generalizing reg with
  | nil => simp [runSession]
  | cons m rest ih =>
    simp only [runSession]
    cases hc : (handleMessage env reg m).2.2 with
    | none =>
      simp only [hc, List.mem_append]
      intro x hx
      rcases hx with hx | hx
      · exact handleMessage_no_voices env reg m x hx
      · exact ih _ x hx
    | some c =>
      simp only [hc]
      exact handleMessage_no_voices env reg m

/-! ### Claim theorems -/

/-- C4: an inbound request message with a missing or empty voice field or a
missing or empty audio field is silently ignored (`continue`, lines 123-126):
the server sends no message of any kind, performs no state transition (the
loop state is exactly as before the message), and the connection stays open
(the remaining messages are processed as if the malformed one never
arrived). -/
theorem malformed_request_dropped (env : PipelineEnv) (reg : Registry) (m : ClientMsg)
    (rest : List ClientMsg)
    (h : pyTruthy m.voice = false ∨ pyTruthy m.audio = false) :
    handleMessage env reg m = (reg, [], none) ∧
    runSession env reg (m :: rest) = runSession env reg rest := by
  have hm : handleMessage env reg m = (reg, [], none) := by
    unfold handleMessage
    rcases h with h | h <;> simp [h]
  exact ⟨hm, by simp [runSession, hm]⟩

theorem malformed_request_dropped_witness :
    (pyTruthy emptyAudioMsg.voice = false ∨ pyTruthy emptyAudioMsg.audio = false) ∧
    handleMessage testEnv testRegistry emptyAudioMsg = (testRegistry, [], none) ∧
    runSession testEnv testRegistry [emptyAudioMsg] = runSession testEnv testRegistry [] :=
  ⟨Or.inr (by decide),
    malformed_request_dropped testEnv testRegistry emptyAudioMsg [] (Or.inr (by decide))⟩

/-- C2: when pydub's conversion of the audio blob raises (corrupt or
unsupported container), `transcribe_audio_stream` catches the exception and
returns `""` (lines 80-82) rather than raising past the pipeline boundary;
the loop then treats this as "no speech detected" and the session keeps
serving the remaining messages. -/
theorem decode_failure_recovered (env : PipelineEnv) (reg : Registry) (m : ClientMsg)
    (rest : List ClientMsg) (bs : List Nat) (e : String)
    (hv : pyTruthy m.voice = true) (ha : pyTruthy m.audio = true)
    (hb : b64decode (m.audio.getD "") = .ok bs)
    (hc : env.convert bs = .error e) :
    transcribe_audio_stream env bs = "" ∧
    handleMessage env reg m =
      (reg,
        [ServerMsg.status "Received audio. Transcribing...",
         ServerMsg.result "No speech detected." none], none) ∧
    runSession env reg (m :: rest) =
      ((runSession env reg rest).1,
        ServerMsg.status "Received audio. Transcribing..." ::
          ServerMsg.result "No speech detected." none :: (runSession env reg rest).2.1,
        (runSession env reg rest).2.2) := by
  have ht : transcribe_audio_stream env bs = "" := by
    unfold transcribe_audio_stream
    rw [hc]
  have hm : handleMessage env reg m =
      (reg,
        [ServerMsg.status "Received audio. Transcribing...",
         ServerMsg.result "No speech detected." none], none) := by
    unfold handleMessage
    rw [hv, ha]
    simp [hb, ht]
  exact ⟨ht, hm, by simp [runSession, hm]⟩

theorem decode_failure_recovered_witness :
    (pyTruthy badContainerMsg.voice = true ∧ pyTruthy badContainerMsg.audio = true ∧
      b64decode (badContainerMsg.audio.getD "") = .ok [0, 0, 0] ∧
      failEnv.convert [0, 0, 0] = .error "Decoding failed. ffmpeg returned error code: 1") ∧
    transcribe_audio_stream failEnv [0, 0, 0] = "" ∧
    handleMessage failEnv testRegistry badContainerMsg =
      (testRegistry,
        [ServerMsg.status "Received audio. Transcribing...",
         ServerMsg.result "No speech detected." none], none) ∧
    runSession failEnv testRegistry [badContainerMsg] =
      ((runSession failEnv testRegistry []).1,
        ServerMsg.status "Received audio. Transcribing..." ::
          ServerMsg.result "No speech detected." none ::
            (runSession failEnv testRegistry []).2.1,
        (runSession failEnv testRegistry []).2.2) :=
  ⟨⟨by decide, by decide, by decide, by decide⟩,
    decode_failure_recovered failEnv testRegistry badContainerMsg [] [0, 0, 0]
      "Decoding failed. ffmpeg returned error code: 1"
      (by decide) (by decide) (by decide) (by decide)⟩

/-- C9: a request with non-empty voice and audio fields whose audio payload
makes `base64.b64decode` raise (line 128) is neither silently dropped nor
recovered: the status message of line 127 has already been sent, the
exception propagates to the handler of lines 139-141, and the server closes
the connection with code 1011; no result message is produced.  ("Not valid
base64" is exactly the condition under which the Python call raises, i.e.
`b64decode` returns `.error`.) -/
theorem invalid_base64_closes (env : PipelineEnv) (reg : Registry) (m : ClientMsg)
    (rest : List ClientMsg) (e : String)
    (hv : pyTruthy m.voice = true) (ha : pyTruthy m.audio = true)
    (hb : b64decode (m.audio.getD "") = .error e) :
    handleMessage env reg m =
      (reg, [ServerMsg.status "Received audio. Transcribing..."],
        some (1011, "An internal error occurred: " ++ e)) ∧
    runSession env reg (m :: rest) =
      (reg, [ServerMsg.status "Received audio. Transcribing..."],
        SessionEnd.closed 1011 ("An internal error occurred: " ++ e)) := by
  have hm : handleMessage env reg m =
      (reg, [ServerMsg.status "Received audio. Transcribing..."],
        some (1011, "An internal error occurred: " ++ e)) := by
    unfold handleMessage
    rw [hv, ha]
    simp [hb]
  exact ⟨hm, by simp [runSession, hm]⟩

theorem invalid_base64_closes_witness :
    (pyTruthy badBase64Msg.voice = true ∧ pyTruthy badBase64Msg.audio = true ∧
      b64decode (badBase64Msg.audio.getD "") = .error "Incorrect padding") ∧
    handleMessage testEnv testRegistry badBase64Msg =
      (testRegistry, [ServerMsg.status "Received audio. Transcribing..."],
        some (1011, "An internal error occurred: " ++ "Incorrect padding")) ∧
    runSession testEnv testRegistry [badBase64Msg] =
      (testRegistry, [ServerMsg.status "Received audio. Transcribing..."],
        SessionEnd.closed 1011 ("An internal error occurred: " ++ "Incorrect padding")) :=
  ⟨⟨by decide, by decide, by decide⟩,
    invalid_base64_closes testEnv testRegistry badBase64Msg [] "Incorrect padding"
      (by decide) (by decide) (by decide)⟩

/-- C3: for a processed request (well-formed fields, payload decodes), the
result message's audio field is `none` exactly when the transcript is empty
(lines 130-136); in the empty case the result text is exactly
`"No speech detected."` and the loop goes on to serve the remaining
messages. -/
theorem result_audio_null_iff (env : PipelineEnv) (reg : Registry) (m : ClientMsg)
    (rest : List ClientMsg) (bs : List Nat)
    (hv : pyTruthy m.voice = true) (ha : pyTruthy m.audio = true)
    (hb : b64decode (m.audio.getD "") = .ok bs) :
    (∀ text audio, ServerMsg.result text audio ∈ (handleMessage env reg m).2.1 →
      (audio = none ↔ transcribe_audio_stream env bs = "")) ∧
    (transcribe_audio_stream env bs = "" →
      handleMessage env reg m =
        (reg,
          [ServerMsg.status "Received audio. Transcribing...",
           ServerMsg.result "No speech detected." none], none) ∧
      runSession env reg (m :: rest) =
        ((runSession env reg rest).1,
          ServerMsg.status "Received audio. Transcribing..." ::
            ServerMsg.result "No speech detected." none :: (runSession env reg rest).2.1,
          (runSession env reg rest).2.2)) := by
  by_cases ht : transcribe_audio_stream env bs = ""
  · have hm : handleMessage env reg m =
        (reg,
          [ServerMsg.status "Received audio. Transcribing...",
           ServerMsg.result "No speech detected." none], none) := by
      unfold handleMessage
      rw [hv, ha]
      simp [hb, ht]
    refine ⟨?_, fun _ => ⟨hm, by simp [runSession, hm]⟩⟩
    intro text audio hmem
    rw [hm] at hmem
    simp only [List.mem_cons, List.mem_singleton, List.not_mem_nil, or_false] at hmem
    rcases hmem with hmem | hmem
    · exact absurd hmem (by simp)
    · have haud : audio = none := by
        cases hmem
        rfl
      simp [haud, ht]
  · refine ⟨?_, fun h => absurd h ht⟩
    intro text audio hmem
    rcases hs : synthesize_speech_stream env reg (transcribe_audio_stream env bs)
        (m.voice.getD "") with e | sb
    · have hm : handleMessage env reg m =
          (reg,
            [ServerMsg.status "Received audio. Transcribing...",
             ServerMsg.status "Synthesizing new voice..."],
            some (1011, "An internal error occurred: " ++ e)) := by
        unfold handleMessage
        rw [hv, ha]
        simp [hb, ht, hs]
      rw [hm] at hmem
      simp at hmem
    · have hm : handleMessage env reg m =
          (reg,
            [ServerMsg.status "Received audio. Transcribing...",
             ServerMsg.status "Synthesizing new voice...",
             ServerMsg.result (transcribe_audio_stream env bs)
               (some (b64encode sb))], none) := by
        unfold handleMessage
        rw [hv, ha]
        simp [hb, ht, hs]
      rw [hm] at hmem
      simp only [List.mem_cons, List.mem_singleton, List.not_mem_nil, or_false] at hmem
      rcases hmem with hmem | hmem | hmem
      · exact absurd hmem (by simp)
      · exact absurd hmem (by simp)
      · have haud : audio = some (b64encode sb) := by
          cases hmem
          rfl
        simp [haud, ht]

theorem result_audio_null_iff_witness :
    (pyTruthy badContainerMsg.voice = true ∧ pyTruthy badContainerMsg.audio = true ∧
      b64decode (badContainerMsg.audio.getD "") = .ok [0, 0, 0]) ∧
    ((∀ text audio,
        ServerMsg.result text audio ∈ (handleMessage failEnv testRegistry badContainerMsg).2.1 →
          (audio = none ↔ transcribe_audio_stream failEnv [0, 0, 0] = "")) ∧
      (transcribe_audio_stream failEnv [0, 0, 0] = "" →
        handleMessage failEnv testRegistry badContainerMsg =
          (testRegistry,
            [ServerMsg.status "Received audio. Transcribing...",
             ServerMsg.result "No speech detected." none], none) ∧
        runSession failEnv testRegistry [badContainerMsg] =
          ((runSession failEnv testRegistry []).1,
            ServerMsg.status "Received audio. Transcribing..." ::
              ServerMsg.result "No speech detected." none ::
                (runSession failEnv testRegistry []).2.1,
            (runSession failEnv testRegistry []).2.2))) :=
  ⟨⟨by decide, by decide, by decide⟩,
    result_audio_null_iff failEnv testRegistry badContainerMsg [] [0, 0, 0]
      (by decide) (by decide) (by decide)⟩

/-- C1 counterexample: a well-formed request naming a voice absent from the
registry.  The server sends only the two advisory status messages — no error
message of any kind — and then closes the connection abnormally with code
1011 (the `ValueError` of line 95 escapes to the handler of lines 139-141),
so the session does not remain open for further requests. -/
theorem unknown_voice_counterexample :
    pyTruthy (ClientMsg.mk (some "Bob") (some "AAAA")).voice = true ∧
    pyTruthy (ClientMsg.mk (some "Bob") (some "AAAA")).audio = true ∧
    dictLookup testRegistry "Bob" = none ∧
    runSession testEnv testRegistry [ClientMsg.mk (some "Bob") (some "AAAA")] =
      (testRegistry,
        [ServerMsg.status "Received audio. Transcribing...",
         ServerMsg.status "Synthesizing new voice..."],
        SessionEnd.closed 1011 "An internal error occurred: Selected voice not found.") := by
  decide

/-- C1 amended: for a well-formed request whose payload decodes and whose
transcript is non-empty, naming a voice absent from the registry, the server
does not send an error message; the `ValueError("Selected voice not found.")`
of line 95 escapes the loop and the server closes the connection abnormally
with code 1011 and a reason naming the failure, ending the session. -/
theorem unknown_voice_closes (env : PipelineEnv) (reg : Registry) (m : ClientMsg)
    (rest : List ClientMsg) (bs : List Nat)
    (hv : pyTruthy m.voice = true) (ha : pyTruthy m.audio = true)
    (hb : b64decode (m.audio.getD "") = .ok bs)
    (ht : transcribe_audio_stream env bs ≠ "")
    (hnf : dictLookup reg (m.voice.getD "") = none) :
    runSession env reg (m :: rest) =
      (reg,
        [ServerMsg.status "Received audio. Transcribing...",
         ServerMsg.status "Synthesizing new voice..."],
        SessionEnd.closed 1011 "An internal error occurred: Selected voice not found.") := by
  have hs : synthesize_speech_stream env reg (transcribe_audio_stream env bs)
      (m.voice.getD "") = .error "Selected voice not found." := by
    unfold synthesize_speech_stream
    rw [hnf]
  have hm : handleMessage env reg m =
      (reg,
        [ServerMsg.status "Received audio. Transcribing...",
         ServerMsg.status "Synthesizing new voice..."],
        some (1011, "An internal error occurred: Selected voice not found.")) := by
    unfold handleMessage
    rw [hv, ha]
    simp [hb, ht, hs]
  simp [runSession, hm]

theorem unknown_voice_closes_witness :
    (pyTruthy (ClientMsg.mk (some "Bob") (some "AAAA")).voice = true ∧
      pyTruthy (ClientMsg.mk (some "Bob") (some "AAAA")).audio = true ∧
      b64decode ((ClientMsg.mk (some "Bob") (some "AAAA")).audio.getD "") = .ok [0, 0, 0] ∧
      transcribe_audio_stream testEnv [0, 0, 0] ≠ "" ∧
      dictLookup testRegistry ((ClientMsg.mk (some "Bob") (some "AAAA")).voice.getD "") = none) ∧
    runSession testEnv testRegistry [ClientMsg.mk (some "Bob") (some "AAAA")] =
      (testRegistry,
        [ServerMsg.status "Received audio. Transcribing...",
         ServerMsg.status "Synthesizing new voice..."],
        SessionEnd.closed 1011 "An internal error occurred: Selected voice not found.") :=
  ⟨⟨by decide, by decide, by decide, by decide, by decide⟩,
    unknown_voice_closes testEnv testRegistry (ClientMsg.mk (some "Bob") (some "AAAA")) []
      [0, 0, 0] (by decide) (by decide) (by decide) (by decide) (by decide)⟩

/-- C6: on every session, the catalog message — `{type: "voices"}` carrying
all display names of the registry — is the very first server-to-client
message (sent at line 119, right after the accept of line 117), and no other
catalog message is ever sent: the whole trace contains exactly one. -/
theorem catalog_sent_once (env : PipelineEnv) (reg : Registry) (msgs : List ClientMsg) :
    (websocket_endpoint env reg msgs).2.1.head? =
      some (ServerMsg.voices (dictKeys reg)) ∧
    (websocket_endpoint env reg msgs).2.1.countP isVoicesMsg = 1 := by
  constructor
  · rfl
  · have h0 : (runSession env reg msgs).2.1.countP isVoicesMsg = 0 :=
      List.countP_eq_zero.mpr (by
        intro x hx
        simp [runSession_no_voices env reg msgs x hx])
    simp [websocket_endpoint, List.countP_cons, h0, isVoicesMsg]

/-- C7: the voice table is built exactly once, by `startup_event`, and no
session operation mutates it: the table threaded through the receive loop is
returned unchanged by every session, whatever messages arrive and however the
session ends. -/
theorem registry_read_only (env : PipelineEnv) (listing : List String) (reg : Registry)
    (msgs : List ClientMsg) :
    (runSession env reg msgs).1 = reg ∧
    (websocket_endpoint env (startup_event listing) msgs).1 = startup_event listing := by
  refine ⟨runSession_fst env reg msgs, ?_⟩
  simp [websocket_endpoint, runSession_fst]

/-- C5: display-name derivation is a total deterministic function of the
pack's base filename (lines 51-56): base `en_US-amy-medium` yields
`"Amy (US, medium)"`, and a base with fewer than three hyphen-separated
segments falls back to the raw base name verbatim (the `IndexError` branch;
indexing errors are the only exceptions the `try` body can raise, so the
function never raises — in this model it is total by construction). -/
theorem display_name_derivation (base : String)
    (h : (pySplit '-' base).length < 3) :
    deriveFriendlyName "en_US-amy-medium" = "Amy (US, medium)" ∧
    deriveFriendlyName base = base := by
  refine ⟨by decide, ?_⟩
  have h2 : (pySplit '-' base)[2]? = none := List.getElem?_eq_none (by omega)
  rcases hl : (pySplit '_' ((pySplit '-' base).headD ""))[1]? with _ | lr <;>
    rcases hp1 : (pySplit '-' base)[1]? with _ | nm <;>
      simp [deriveFriendlyName, hl, hp1, h2]

theorem display_name_derivation_witness :
    (pySplit '-' "foo-bar").length < 3 ∧
    deriveFriendlyName "en_US-amy-medium" = "Amy (US, medium)" ∧
    deriveFriendlyName "foo-bar" = "foo-bar" :=
  ⟨by decide, display_name_derivation "foo-bar" (by decide)⟩

/-- C8 counterexample: line 85 divides by `np.iinfo(dtype).max`
(`2^(w-1) - 1` for a signed width-`w` dtype), so the minimum 16-bit sample
`-32768` maps to `-32768/32767 < -1`: the claimed range `[-1.0, 1.0]` does
not hold for every decoded sample. -/
theorem pcm_range_counterexample :
    normalizeSamples 16 [-32768] = [(-32768 : ℚ) / 32767] ∧
    (-32768 : ℚ) / 32767 < -1 := by
  constructor
  · norm_num [normalizeSamples, iinfoMax]
  · rw [div_lt_iff₀ (by norm_num : (0 : ℚ) < 32767)]
    norm_num

/-- C8 amended: each output sample equals the integer sample divided by
`np.iinfo(dtype).max = 2^(w-1) - 1`, and for samples in the signed width-`w`
range the outputs lie in `[-2^(w-1)/(2^(w-1)-1), 1]` — a range whose lower
end is slightly below `-1`, attained only by the minimum sample; the upper
bound `1` holds as claimed. -/
theorem pcm_normalization (w : Nat) (samples : List Int) (hw : 2 ≤ w)
    (hr : ∀ s ∈ samples, -(2 ^ (w - 1) : Int) ≤ s ∧ s < 2 ^ (w - 1)) :
    normalizeSamples w samples = samples.map (fun s : Int => (s : ℚ) / iinfoMax w) ∧
    ∀ q ∈ normalizeSamples w samples,
      -((2 ^ (w - 1) : ℚ) / iinfoMax w) ≤ q ∧ q ≤ 1 := by
  have h2 : (2 : ℚ) ≤ 2 ^ (w - 1) := by
    calc (2 : ℚ) = 2 ^ 1 := (pow_one 2).symm
    _ ≤ 2 ^ (w - 1) := pow_le_pow_right₀ (by norm_num) (by omega)
  have hM : (0 : ℚ) < iinfoMax w := by
    unfold iinfoMax
    linarith
  refine ⟨rfl, ?_⟩
  intro q hq
  rw [normalizeSamples, List.mem_map] at hq
  obtain ⟨s, hs, hqe⟩ := hq
  subst hqe
  obtain ⟨h1, hlt⟩ := hr s hs
  have hsle : (s : ℚ) ≤ iinfoMax w := by
    have hz : s ≤ 2 ^ (w - 1) - 1 := by omega
    unfold iinfoMax
    exact_mod_cast hz
  have hsge : -(2 ^ (w - 1) : ℚ) ≤ (s : ℚ) := by exact_mod_cast h1
  constructor
  · rw [← neg_div]
    exact (div_le_div_iff_of_pos_right hM).mpr hsge
  · exact (div_le_one hM).mpr hsle

theorem pcm_normalization_witness :
    (2 ≤ 16 ∧
      ∀ s ∈ [(-32768 : Int), 0, 32767], -(2 ^ (16 - 1) : Int) ≤ s ∧ s < 2 ^ (16 - 1)) ∧
    (normalizeSamples 16 [(-32768 : Int), 0, 32767] =
        [(-32768 : Int), 0, 32767].map (fun s : Int => (s : ℚ) / iinfoMax 16) ∧
      ∀ q ∈ normalizeSamples 16 [(-32768 : Int), 0, 32767],
        -((2 ^ (16 - 1) : ℚ) / iinfoMax 16) ≤ q ∧ q ≤ 1) :=
  ⟨⟨by norm_num, by decide⟩, pcm_normalization 16 _ (by norm_num) (by decide)⟩

/-- C10: voice packs are processed in lexicographic order of their filenames
(`sorted(os.listdir(...))`, line 45), so the registry — and with it the
catalog's display-name ordering — is a deterministic function of the
directory's file set (invariant under permutations of the listing), and when
two packs derive the same display name the lexicographically last one wins
(the `dict` store of lines 60-61 overwrites). -/
theorem registry_deterministic_last_wins :
    (∀ l₁ l₂ : List String, l₁.Perm l₂ → startup_event l₁ = startup_event l₂) ∧
    (∀ (listing : List String) (f d : String),
      listing.Nodup → f ∈ listing → packContributes listing f d →
      (∀ g ∈ listing, packContributes listing g d → g ≠ f → pyLt g f = true) →
      dictLookup (startup_event listing) d = some (pyReplace f ".onnx" "")) := by
  constructor
  · intro l₁ l₂ h
    have hsorted : pySorted l₁ = pySorted l₂ :=
      List.eq_of_perm_of_sorted
        ((List.perm_insertionSort pyLeRel l₁).trans
          (h.trans (List.perm_insertionSort pyLeRel l₂).symm))
        (List.sorted_insertionSort pyLeRel l₁)
        (List.sorted_insertionSort pyLeRel l₂)
    have hco : ∀ x : String, l₁.contains x = l₂.contains x := by
      intro x
      simp [List.contains, h.mem_iff]
    unfold startup_event
    rw [hsorted]
    apply List.foldl_ext
    intro acc file _
    simp only [startupStep, hco]
  · intro listing f d hnd hmem hcon hlast
    unfold startup_event
    exact foldl_last_contrib listing d (pySorted listing) [] f
      (List.sorted_insertionSort pyLeRel listing)
      ((List.perm_insertionSort pyLeRel listing).symm.nodup hnd)
      ((List.perm_insertionSort pyLeRel listing).mem_iff.mpr hmem)
      hcon
      (fun g hg => hlast g ((List.perm_insertionSort pyLeRel listing).mem_iff.mp hg))

theorem registry_deterministic_last_wins_witness :
    startup_event ["b.onnx", "a.onnx", "a.onnx.json"] =
      startup_event ["a.onnx", "b.onnx", "a.onnx.json"] ∧
    ((dupListing.Nodup ∧ "en_US-amy-medium.onnx" ∈ dupListing ∧
        packContributes dupListing "en_US-amy-medium.onnx" "Amy (US, medium)" ∧
        (∀ g ∈ dupListing, packContributes dupListing g "Amy (US, medium)" →
          g ≠ "en_US-amy-medium.onnx" → pyLt g "en_US-amy-medium.onnx" = true)) ∧
      dictLookup (startup_event dupListing) "Amy (US, medium)" =
        some (pyReplace "en_US-amy-medium.onnx" ".onnx" "")) :=
  ⟨registry_deterministic_last_wins.1 _ _ (List.Perm.swap "a.onnx" "b.onnx" ["a.onnx.json"]),
    ⟨⟨by decide, by decide, by decide, by decide⟩,
      registry_deterministic_last_wins.2 dupListing "en_US-amy-medium.onnx" "Amy (US, medium)"
        (by decide) (by decide) (by decide) (by decide)⟩⟩

end VocalWeaver
